import Mathlib

/-!
Formal model of the mock drone-detection service implemented in `src/main.py`
(FastAPI application "Mock Drone Sensor Systems").

Modelling conventions:
* Python floats are modelled as exact rationals `ℚ`; all the arithmetic the
  service performs on coordinates is addition of a noise term, so no float
  rounding subtleties are relevant to the stated bounds.
* Calls to the process clock and to the global random source are modelled by
  explicit streams passed to the handlers: the `i`-th loop iteration consumes
  reading `i` of each stream, mirroring the one fresh `now_epoch()` /
  `now_iso()` / `random.uniform` call made per iteration in the source.
* The value drawn by `random.uniform(lo, hi)` is an arbitrary rational subject
  to the predicate `uniformRange lo hi`.
* Python's fallible indexing `model.split()[-1]` (which raises `IndexError` on
  an empty list) is modelled by an `Option`-returning last-token operation, and
  the System B handler is correspondingly `Option`-valued.
* Pydantic serialization of a response model is modelled by a `toJson` function
  producing an ordered list of key/value pairs, with the declared field names
  in declaration order.
-/

namespace MockDrone

/-! ## Python string splitting (str.split with no separator) -/

/-- Helper for Python `str.split()`: walks the character list, accumulating the
current token in reverse; whitespace ends the current token (if nonempty) and
consecutive whitespace produces no empty tokens. -/
def splitWsAux : List Char → List Char → List String
  | [], [] => []
  | [], cur => [String.mk cur.reverse]
  | c :: rest, cur =>
    if c.isWhitespace then
      match cur with
      | [] => splitWsAux rest []
      | _ :: _ => String.mk cur.reverse :: splitWsAux rest []
    else splitWsAux rest (c :: cur)

/-- Python `s.split()`: split on runs of whitespace, discarding empty tokens. -/
def pySplit (s : String) : List String := splitWsAux s.data []

/-- Python `s.split()[-1]` as used on line 192 of `src/main.py`: the last
token of the whitespace-split, `none` when the split is empty (in Python this
raises `IndexError`). -/
def lastToken (s : String) : Option String := (pySplit s).getLast?

/-! ## Utility section of `src/main.py` (lines 18-27) -/

/-- Possible return values of Python `random.uniform lo hi`: any value in the
closed interval (the endpoints may be produced due to rounding, per the Python
documentation). -/
def uniformRange (lo hi u : ℚ) : Prop := lo ≤ u ∧ u ≤ hi

/-- Default `delta` argument of `jitter` in `src/main.py` line 26. -/
def defaultDelta : ℚ := 0.0005

/-- Model of `jitter(value, delta=0.0005) = value + random.uniform(-delta, delta)`
(line 26-27). The drawn value `u` is passed explicitly; theorems constrain it
by `uniformRange (-delta) delta u`. -/
def jitter (value : ℚ) (_delta : ℚ) (u : ℚ) : ℚ := value + u

/-- A reading of the UTC clock as Python's `datetime.now(tz=timezone.utc)`
exposes it: calendar fields plus a microsecond component. -/
structure PyDateTime where
  year : Nat
  month : Nat
  day : Nat
  hour : Nat
  minute : Nat
  second : Nat
  microsecond : Nat
deriving Inhabited, DecidableEq

/-- Left-pad the decimal representation of `n` with zeros to `width` digits. -/
def padNum (width n : Nat) : String :=
  let s := toString n
  String.mk (List.replicate (width - s.length) '0') ++ s

/-- Date-and-time part `YYYY-MM-DDTHH:MM:SS` of Python's
`datetime.isoformat()`. -/
def isoDatePart (d : PyDateTime) : String :=
  padNum 4 d.year ++ "-" ++ padNum 2 d.month ++ "-" ++ padNum 2 d.day ++ "T" ++
  padNum 2 d.hour ++ ":" ++ padNum 2 d.minute ++ ":" ++ padNum 2 d.second

/-- Python `datetime.isoformat()` on a timezone-aware UTC datetime with the
default `timespec='auto'`: the fractional-second component `.ffffff` is
emitted only when `microsecond` is nonzero, and the UTC offset renders as
`+00:00`. -/
def isoformatUTC (d : PyDateTime) : String :=
  isoDatePart d ++ (if d.microsecond = 0 then "" else "." ++ padNum 6 d.microsecond) ++ "+00:00"

/-- Model of `now_iso()` (`src/main.py` lines 22-23): format the given UTC
clock reading with `datetime.isoformat()`. -/
def now_iso (d : PyDateTime) : String := isoformatUTC d

/-! ## Dataset (`src/main.py` lines 34-75) -/

/-- One entry of the static drone catalog. -/
structure Drone where
  id : String
  lat : ℚ
  lon : ℚ
  alt : ℚ
  model : String
  manufacturer : String
deriving Inhabited, DecidableEq

/-- The static catalog `BASE_DRONES` (`src/main.py` lines 34-75). -/
def BASE_DRONES : List Drone :=
  [ { id := "DRN-1", lat := 32.0853, lon := 34.7818, alt := 120.0,
      model := "DJI Mini 3", manufacturer := "DJI" },
    { id := "DRN-2", lat := 32.0861, lon := 34.7825, alt := 98.0,
      model := "DJI Air 2", manufacturer := "DJI" },
    { id := "DRN-3", lat := 32.0847, lon := 34.7809, alt := 150.0,
      model := "Autel Evo", manufacturer := "Autel" },
    { id := "DRN-4", lat := 32.0870, lon := 34.7831, alt := 110.0,
      model := "Parrot Anafi", manufacturer := "Parrot" },
    { id := "DRN-5", lat := 32.0839, lon := 34.7798, alt := 130.0,
      model := "DJI Mini 2", manufacturer := "DJI" } ]

/-! ## Response schemas (`src/main.py` lines 82-134) -/

/-- Pydantic model `SystemAResponse` (`src/main.py` lines 82-101). -/
structure SystemAResponse where
  Drone_id : String
  Timestamp : ℤ
  Location_lat : ℚ
  Location_lon : ℚ
  Locatin_alt : ℚ
  Drone_model : String
deriving Inhabited, DecidableEq

/-- Pydantic model `GeoJSONPoint` (`src/main.py` lines 107-109); the `type`
field defaults to `"Point"`. -/
structure GeoJSONPoint where
  type : String := "Point"
  coordinates : List ℚ
deriving Inhabited, DecidableEq

/-- Pydantic model `SystemBResponse` (`src/main.py` lines 112-117). -/
structure SystemBResponse where
  Serial : String
  Detection_timestamp : String
  Location : GeoJSONPoint
  Model : String
  manufacturer : String
deriving Inhabited, DecidableEq

/-! ## JSON serialization as performed by pydantic/FastAPI -/

/-- JSON values, with integers kept apart from other numbers (pydantic
serializes an `int` field as a JSON integer). -/
inductive JValue
  | str (s : String)
  | int (n : ℤ)
  | num (q : ℚ)
  | arr (elems : List JValue)
  | obj (fields : List (String × JValue))

/-- Keys of a serialized JSON object, in order. -/
def jsonKeys : JValue → List String
  | .obj fields => fields.map Prod.fst
  | _ => []

/-- Serialization of a `SystemAResponse`: declared field names in declaration
order (`src/main.py` lines 82-88). -/
def SystemAResponse.toJson (r : SystemAResponse) : JValue :=
  .obj [ ("Drone_id", .str r.Drone_id),
         ("Timestamp", .int r.Timestamp),
         ("Location_lat", .num r.Location_lat),
         ("Location_lon", .num r.Location_lon),
         ("Locatin_alt", .num r.Locatin_alt),
         ("Drone_model", .str r.Drone_model) ]

/-- Serialization of a `GeoJSONPoint` (`src/main.py` lines 107-109). -/
def GeoJSONPoint.toJson (p : GeoJSONPoint) : JValue :=
  .obj [ ("type", .str p.type),
         ("coordinates", .arr (p.coordinates.map JValue.num)) ]

/-- Serialization of a `SystemBResponse`: declared field names in declaration
order (`src/main.py` lines 112-117). -/
def SystemBResponse.toJson (r : SystemBResponse) : JValue :=
  .obj [ ("Serial", .str r.Serial),
         ("Detection_timestamp", .str r.Detection_timestamp),
         ("Location", r.Location.toJson),
         ("Model", .str r.Model),
         ("manufacturer", .str r.manufacturer) ]

/-! ## Endpoint handlers (`src/main.py` lines 140-196) -/

/-- Body returned by `GET /health` (`src/main.py` lines 140-142). -/
def healthBody : JValue := .obj [("status", .str "ok")]

/-- The System A detection built for catalog entry `d` on loop iteration `i`
(`src/main.py` lines 158-165): prefix `"A-"`, one fresh `now_epoch()` reading,
jittered latitude/longitude with the default delta, altitude noise drawn from
`uniform(-5, 5)`, model passed through. -/
def mkSystemA (epochClock : Nat → ℤ) (latD lonD altD : Nat → ℚ) (i : Nat) (d : Drone) :
    SystemAResponse :=
  { Drone_id := "A-" ++ d.id
    Timestamp := epochClock i
    Location_lat := jitter d.lat defaultDelta (latD i)
    Location_lon := jitter d.lon defaultDelta (lonD i)
    Locatin_alt := d.alt + altD i
    Drone_model := d.model }

/-- The `for drone in BASE_DRONES` loop of `get_system_a_detections`
(`src/main.py` lines 155-167), appending one `SystemAResponse` per catalog
entry; `i` is the iteration counter threading the clock/random streams. -/
def systemADetectionsFrom (epochClock : Nat → ℤ) (latD lonD altD : Nat → ℚ) :
    Nat → List Drone → List SystemAResponse
  | _, [] => []
  | i, d :: rest =>
    mkSystemA epochClock latD lonD altD i d ::
      systemADetectionsFrom epochClock latD lonD altD (i + 1) rest

/-- `get_system_a_detections` over an arbitrary catalog. -/
def systemADetections (catalog : List Drone) (epochClock : Nat → ℤ)
    (latD lonD altD : Nat → ℚ) : List SystemAResponse :=
  systemADetectionsFrom epochClock latD lonD altD 0 catalog

/-- Handler of `GET /system-a/detections` (`src/main.py` lines 150-167). -/
def get_system_a_detections (epochClock : Nat → ℤ) (latD lonD altD : Nat → ℚ) :
    List SystemAResponse :=
  systemADetections BASE_DRONES epochClock latD lonD altD

/-- The System B detection built for catalog entry `d` on loop iteration `i`
(`src/main.py` lines 182-194), given the already-extracted last model token
`m`: prefix `"SN-"`, one fresh `now_iso()` reading, GeoJSON coordinates in the
order longitude, latitude, altitude, manufacturer passed through. -/
def mkSystemB (isoClock : Nat → PyDateTime) (latD lonD altD : Nat → ℚ) (i : Nat)
    (d : Drone) (m : String) : SystemBResponse :=
  { Serial := "SN-" ++ d.id
    Detection_timestamp := now_iso (isoClock i)
    Location := { coordinates := [ jitter d.lon defaultDelta (lonD i),
                                   jitter d.lat defaultDelta (latD i),
                                   d.alt + altD i ] }
    Model := m
    manufacturer := d.manufacturer }

/-- The `for drone in BASE_DRONES` loop of `get_system_b_detections`
(`src/main.py` lines 179-196). `Model=drone["model"].split()[-1]` can raise in
Python; here the failure propagates as `none`. -/
def systemBDetectionsFrom (isoClock : Nat → PyDateTime) (latD lonD altD : Nat → ℚ) :
    Nat → List Drone → Option (List SystemBResponse)
  | _, [] => some []
  | i, d :: rest =>
    match lastToken d.model with
    | none => none
    | some m =>
      match systemBDetectionsFrom isoClock latD lonD altD (i + 1) rest with
      | none => none
      | some l => some (mkSystemB isoClock latD lonD altD i d m :: l)

/-- `get_system_b_detections` over an arbitrary catalog. -/
def systemBDetections (catalog : List Drone) (isoClock : Nat → PyDateTime)
    (latD lonD altD : Nat → ℚ) : Option (List SystemBResponse) :=
  systemBDetectionsFrom isoClock latD lonD altD 0 catalog

/-- Handler of `GET /system-b/detections` (`src/main.py` lines 175-196). -/
def get_system_b_detections (isoClock : Nat → PyDateTime) (latD lonD altD : Nat → ℚ) :
    Option (List SystemBResponse) :=
  systemBDetections BASE_DRONES isoClock latD lonD altD

/-! ## Server state and request dispatch -/

/-- The only process-wide data the service holds: the (read-only) catalog. -/
structure ServerState where
  catalog : List Drone
deriving Inhabited, DecidableEq

/-- Environment of one request: the clock readings and random draws consumed
while handling it. -/
structure Env where
  epochClock : Nat → ℤ
  isoClock : Nat → PyDateTime
  latD : Nat → ℚ
  lonD : Nat → ℚ
  altD : Nat → ℚ

/-- The three routes the application registers. -/
inductive Request
  | health
  | systemA
  | systemB
deriving Inhabited, DecidableEq

/-- Outcome of a request: a 200 JSON body, or a process-level server error
(unhandled exception). -/
inductive HttpResult
  | ok (body : JValue)
  | serverError

/-- Dispatch one request against the server state: each handler reads the
catalog and the request's clock/random environment and returns the state
unchanged together with its response. -/
def handleRequest (s : ServerState) (env : Env) : Request → ServerState × HttpResult
  | .health => (s, .ok healthBody)
  | .systemA =>
    (s, .ok (JValue.arr
      ((systemADetections s.catalog env.epochClock env.latD env.lonD env.altD).map
        SystemAResponse.toJson)))
  | .systemB =>
    (s, match systemBDetections s.catalog env.isoClock env.latD env.lonD env.altD with
        | some l => .ok (JValue.arr (l.map SystemBResponse.toJson))
        | none => .serverError)

/-- Run a sequence of requests, threading the server state. -/
def runServer : ServerState → List (Env × Request) → ServerState
  | s, [] => s
  | s, (env, req) :: rest => runServer (handleRequest s env req).1 rest

/-! ## Concrete sample inputs used by witnesses and counterexamples -/

/-- Epoch clock whose every reading is 0. -/
def zeroEpochClock : Nat → ℤ := fun _ => 0

/-- Random stream whose every draw is 0 (an admissible `uniform` value for
both ranges used by the service). -/
def zeroDraw : Nat → ℚ := fun _ => 0

/-- A fixed UTC clock reading with a nonzero microsecond component. -/
def microReading : PyDateTime :=
  { year := 2026, month := 1, day := 19, hour := 15, minute := 56, second := 5,
    microsecond := 49630 }

/-- A fixed UTC clock reading whose microsecond component is zero. -/
def microZeroReading : PyDateTime :=
  { year := 2026, month := 1, day := 19, hour := 15, minute := 56, second := 5,
    microsecond := 0 }

/-- ISO clock whose every reading is `microReading`. -/
def fixedIsoClock : Nat → PyDateTime := fun _ => microReading

/-- A concrete request environment. -/
def sampleEnv : Env :=
  { epochClock := zeroEpochClock, isoClock := fixedIsoClock,
    latD := zeroDraw, lonD := zeroDraw, altD := zeroDraw }

/-- A concrete System A response list (all clock readings and draws zero). -/
def sampleA : List SystemAResponse :=
  get_system_a_detections zeroEpochClock zeroDraw zeroDraw zeroDraw

/-- A concrete System B response list. -/
def sampleB : Option (List SystemBResponse) :=
  get_system_b_detections fixedIsoClock zeroDraw zeroDraw zeroDraw

/-- The concrete System B response list underlying `sampleB`. -/
def sampleBList : List SystemBResponse := sampleB.getD []

/-- The serialized field names of a System A detection, in order. -/
def systemAFieldNames : List String :=
  ["Drone_id", "Timestamp", "Location_lat", "Location_lon", "Locatin_alt", "Drone_model"]

/-- The serialized field names of a System B detection, in order. -/
def systemBFieldNames : List String :=
  ["Serial", "Detection_timestamp", "Location", "Model", "manufacturer"]

/-! ## Helper lemmas -/

/-- The System A loop produces one detection per catalog entry. -/
theorem systemADetectionsFrom_length (eC : Nat → ℤ) (la lo al : Nat → ℚ) :
    ∀ (i : Nat) (cat : List Drone),
      (systemADetectionsFrom eC la lo al i cat).length = cat.length := by
  intro i cat
  induction cat generalizing i with
  | nil => rfl
  | cons d rest ih => simp [systemADetectionsFrom, ih]

/-- Every element of the System A loop output paired with its catalog entry
and iteration index is the canonical detection for that entry. -/
theorem systemADetectionsFrom_zip (eC : Nat → ℤ) (la lo al : Nat → ℚ) :
    ∀ (cat : List Drone) (i : Nat)
      (q : SystemAResponse × (Nat × Drone)),
      q ∈ (systemADetectionsFrom eC la lo al i cat).zip (cat.enumFrom i) →
      q.1 = mkSystemA eC la lo al q.2.1 q.2.2 := by
  intro cat
  induction cat with
  | nil => intro i q hq; simp [systemADetectionsFrom] at hq
  | cons d rest ih =>
    intro i q hq
    simp only [systemADetectionsFrom, List.enumFrom, List.zip_cons_cons,
      List.mem_cons] at hq
    rcases hq with h | h
    · subst h; rfl
    · exact ih (i + 1) q h

/-- Every element of the System A loop output is the canonical detection of
some catalog entry. -/
theorem systemADetectionsFrom_mem (eC : Nat → ℤ) (la lo al : Nat → ℚ) :
    ∀ (cat : List Drone) (i : Nat) (r : SystemAResponse),
      r ∈ systemADetectionsFrom eC la lo al i cat →
      ∃ j d, d ∈ cat ∧ r = mkSystemA eC la lo al j d := by
  intro cat
  induction cat with
  | nil => intro i r hr; simp [systemADetectionsFrom] at hr
  | cons d rest ih =>
    intro i r hr
    simp only [systemADetectionsFrom, List.mem_cons] at hr
    rcases hr with h | h
    · exact ⟨i, d, List.mem_cons_self d rest, h⟩
    · obtain ⟨j, d', hd', hr'⟩ := ih (i + 1) r h
      exact ⟨j, d', List.mem_cons_of_mem d hd', hr'⟩

/-- When the System B loop succeeds it produces one detection per catalog
entry. -/
theorem systemBDetectionsFrom_length (iC : Nat → PyDateTime) (la lo al : Nat → ℚ) :
    ∀ (cat : List Drone) (i : Nat) (l : List SystemBResponse),
      systemBDetectionsFrom iC la lo al i cat = some l → l.length = cat.length := by
  intro cat
  induction cat with
  | nil =>
    intro i l hl
    simp only [systemBDetectionsFrom, Option.some.injEq] at hl
    simp [← hl]
  | cons d rest ih =>
    intro i l hl
    simp only [systemBDetectionsFrom] at hl
    cases h1 : lastToken d.model with
    | none => rw [h1] at hl; exact absurd hl (by simp)
    | some m =>
      rw [h1] at hl
      cases h2 : systemBDetectionsFrom iC la lo al (i + 1) rest with
      | none => rw [h2] at hl; exact absurd hl (by simp)
      | some l' =>
        rw [h2] at hl
        simp only [Option.some.injEq] at hl
        subst hl
        simp [ih (i + 1) l' h2]

/-- The System B loop succeeds whenever every catalog entry's model string has
a last token. -/
theorem systemBDetectionsFrom_isSome (iC : Nat → PyDateTime) (la lo al : Nat → ℚ) :
    ∀ (cat : List Drone) (i : Nat),
      (∀ d ∈ cat, (lastToken d.model).isSome) →
      (systemBDetectionsFrom iC la lo al i cat).isSome := by
  intro cat
  induction cat with
  | nil => intro i _; simp [systemBDetectionsFrom]
  | cons d rest ih =>
    intro i hall
    have hd := hall d (List.mem_cons_self d rest)
    have hrest := ih (i + 1) fun d' hd' => hall d' (List.mem_cons_of_mem d hd')
    cases h1 : lastToken d.model with
    | none => rw [h1] at hd; simp at hd
    | some m =>
      cases h2 : systemBDetectionsFrom iC la lo al (i + 1) rest with
      | none => rw [h2] at hrest; simp at hrest
      | some l' => simp [systemBDetectionsFrom, h1, h2]

/-- Every element of a successful System B loop output paired with its catalog
entry and iteration index is the canonical detection for that entry, built
from the last token of the entry's model string. -/
theorem systemBDetectionsFrom_zip (iC : Nat → PyDateTime) (la lo al : Nat → ℚ) :
    ∀ (cat : List Drone) (i : Nat) (l : List SystemBResponse),
      systemBDetectionsFrom iC la lo al i cat = some l →
      ∀ q ∈ l.zip (cat.enumFrom i),
        ∃ m, lastToken q.2.2.model = some m ∧ q.1 = mkSystemB iC la lo al q.2.1 q.2.2 m := by
  intro cat
  induction cat with
  | nil =>
    intro i l hl
    simp only [systemBDetectionsFrom, Option.some.injEq] at hl
    subst hl
    intro q hq
    simp at hq
  | cons d rest ih =>
    intro i l hl
    simp only [systemBDetectionsFrom] at hl
    cases h1 : lastToken d.model with
    | none => rw [h1] at hl; exact absurd hl (by simp)
    | some m =>
      rw [h1] at hl
      cases h2 : systemBDetectionsFrom iC la lo al (i + 1) rest with
      | none => rw [h2] at hl; exact absurd hl (by simp)
      | some l' =>
        rw [h2] at hl
        simp only [Option.some.injEq] at hl
        subst hl
        intro q hq
        simp only [List.enumFrom, List.zip_cons_cons, List.mem_cons] at hq
        rcases hq with h | h
        · subst h; exact ⟨m, h1, rfl⟩
        · exact ih (i + 1) l' h2 q h

/-- Every element of a successful System B loop output takes its fields from
some catalog entry. -/
theorem systemBDetectionsFrom_mem (iC : Nat → PyDateTime) (la lo al : Nat → ℚ) :
    ∀ (cat : List Drone) (i : Nat) (l : List SystemBResponse),
      systemBDetectionsFrom iC la lo al i cat = some l →
      ∀ r ∈ l, ∃ j d m, d ∈ cat ∧ lastToken d.model = some m ∧
        r = mkSystemB iC la lo al j d m := by
  intro cat
  induction cat with
  | nil =>
    intro i l hl
    simp only [systemBDetectionsFrom, Option.some.injEq] at hl
    subst hl
    intro r hr
    simp at hr
  | cons d rest ih =>
    intro i l hl
    simp only [systemBDetectionsFrom] at hl
    cases h1 : lastToken d.model with
    | none => rw [h1] at hl; exact absurd hl (by simp)
    | some m =>
      rw [h1] at hl
      cases h2 : systemBDetectionsFrom iC la lo al (i + 1) rest with
      | none => rw [h2] at hl; exact absurd hl (by simp)
      | some l' =>
        rw [h2] at hl
        simp only [Option.some.injEq] at hl
        subst hl
        intro r hr
        simp only [List.mem_cons] at hr
        rcases hr with h | h
        · exact ⟨i, d, m, List.mem_cons_self d rest, h1, h⟩
        · obtain ⟨j, d', m', hd', hm', hr'⟩ := ih (i + 1) l' h2 r h
          exact ⟨j, d', m', List.mem_cons_of_mem d hd', hm', hr'⟩

/-- Adding a draw from `[-d, d]` moves a value by at most `d`. -/
theorem abs_add_draw_sub (v u d : ℚ) (h : uniformRange (-d) d u) : |v + u - v| ≤ d := by
  rw [add_sub_cancel_left, abs_le]
  exact h

/-- A split started on a nonempty current token is nonempty. -/
theorem splitWsAux_ne_nil_of_cur (l : List Char) :
    ∀ cur : List Char, cur ≠ [] → splitWsAux l cur ≠ [] := by
  induction l with
  | nil =>
    intro cur hcur
    cases cur with
    | nil => exact absurd rfl hcur
    | cons c cs => simp [splitWsAux]
  | cons c rest ih =>
    intro cur hcur
    by_cases hw : c.isWhitespace
    · cases cur with
      | nil => exact absurd rfl hcur
      | cons a as => simp [splitWsAux, hw]
    · simpa [splitWsAux, hw] using ih (c :: cur) (by simp)

/-- A split of a character list holding at least one non-whitespace character
is nonempty, whatever token is currently accumulated. -/
theorem splitWsAux_ne_nil (l : List Char) :
    ∀ cur : List Char, (∃ c ∈ l, ¬ c.isWhitespace) → splitWsAux l cur ≠ [] := by
  induction l with
  | nil => intro cur h; simp at h
  | cons c rest ih =>
    intro cur h
    by_cases hw : c.isWhitespace
    · have hrest : ∃ a ∈ rest, ¬ a.isWhitespace := by
        rcases h with ⟨a, ha, hna⟩
        rcases List.mem_cons.1 ha with rfl | ha'
        · exact absurd hw hna
        · exact ⟨a, ha', hna⟩
      cases cur with
      | nil => simpa [splitWsAux, hw] using ih [] hrest
      | cons b bs => simp [splitWsAux, hw]
    · simpa [splitWsAux, hw] using splitWsAux_ne_nil_of_cur rest (c :: cur) (by simp)

/-- A string holding a non-whitespace character has a last token: the Python
expression `s.split()[-1]` cannot raise on it. -/
theorem lastToken_isSome (s : String) (h : ∃ c ∈ s.data, ¬ c.isWhitespace) :
    (lastToken s).isSome := by
  have hne : pySplit s ≠ [] := splitWsAux_ne_nil s.data [] h
  rw [lastToken, Option.isSome_iff_ne_none]
  intro hnone
  exact hne (List.getLast?_eq_none_iff.1 hnone)

/-- The constant-zero draw is an admissible `uniform(-d, d)` value for any
nonnegative `d`. -/
theorem zeroDraw_uniform (d : ℚ) (hd : 0 ≤ d) : ∀ i, uniformRange (-d) d (zeroDraw i) :=
  fun _ => ⟨neg_nonpos.2 hd, hd⟩

/-! ## Claims -/

/-- C1: every call to `GET /system-a/detections` and every call to
`GET /system-b/detections` returns an array of length exactly 5, the size of
the static catalog `BASE_DRONES`. -/
theorem detections_count_eq_catalog_size (eC : Nat → ℤ) (iC : Nat → PyDateTime)
    (la lo al lb lc ld : Nat → ℚ) :
    (get_system_a_detections eC la lo al).length = BASE_DRONES.length
    ∧ (get_system_b_detections iC lb lc ld).map List.length = some BASE_DRONES.length
    ∧ BASE_DRONES.length = 5 := by
  refine ⟨systemADetectionsFrom_length eC la lo al 0 BASE_DRONES, ?_, by decide⟩
  have hs : (get_system_b_detections iC lb lc ld).isSome :=
    systemBDetectionsFrom_isSome iC lb lc ld BASE_DRONES 0 (by decide)
  obtain ⟨l, hl⟩ := Option.isSome_iff_exists.1 hs
  have hl' : systemBDetectionsFrom iC lb lc ld 0 BASE_DRONES = some l := hl
  rw [hl]
  simp [systemBDetectionsFrom_length iC lb lc ld BASE_DRONES 0 l hl']

/-- C2: every System A `Drone_id` is `"A-"` followed by the id of a catalog
entry, every System B `Serial` is `"SN-"` followed by the id of a catalog
entry, and the catalog ids are exactly `DRN-1 .. DRN-5`. -/
theorem detection_id_from_catalog (eC : Nat → ℤ) (iC : Nat → PyDateTime)
    (la lo al lb lc ld : Nat → ℚ) :
    (∀ r ∈ get_system_a_detections eC la lo al,
        ∃ d ∈ BASE_DRONES, r.Drone_id = "A-" ++ d.id)
    ∧ (∀ l, get_system_b_detections iC lb lc ld = some l →
        ∀ r ∈ l, ∃ d ∈ BASE_DRONES, r.Serial = "SN-" ++ d.id)
    ∧ BASE_DRONES.map Drone.id = ["DRN-1", "DRN-2", "DRN-3", "DRN-4", "DRN-5"] := by
  refine ⟨?_, ?_, by decide⟩
  · intro r hr
    obtain ⟨j, d, hd, rfl⟩ := systemADetectionsFrom_mem eC la lo al BASE_DRONES 0 r hr
    exact ⟨d, hd, rfl⟩
  · intro l hl r hr
    obtain ⟨j, d, m, hd, hm, rfl⟩ :=
      systemBDetectionsFrom_mem iC lb lc ld BASE_DRONES 0 l hl r hr
    exact ⟨d, hd, rfl⟩

/-- Witness for C2 at a concrete input: the first detection of a concrete
System A call carries the id prefix. -/
theorem detection_id_from_catalog_witness :
    ∃ d ∈ BASE_DRONES, (sampleA.headI).Drone_id = "A-" ++ d.id :=
  (detection_id_from_catalog zeroEpochClock fixedIsoClock zeroDraw zeroDraw zeroDraw
      zeroDraw zeroDraw zeroDraw).1 sampleA.headI (List.Mem.head _)

/-- C10: every catalog model string holds a non-whitespace character, the
last-token extraction `model.split()[-1]` therefore never fails on the
catalog, and the System B handler is total. -/
theorem system_b_handler_total (iC : Nat → PyDateTime) (la lo al : Nat → ℚ) :
    (∀ s : String, (∃ c ∈ s.data, ¬ c.isWhitespace) → (lastToken s).isSome)
    ∧ (BASE_DRONES.all fun d => d.model.data.any fun c => !c.isWhitespace) = true
    ∧ (get_system_b_detections iC la lo al).isSome := by
  refine ⟨lastToken_isSome, by decide, ?_⟩
  exact systemBDetectionsFrom_isSome iC la lo al BASE_DRONES 0 (by decide)

/-- Witness for C10 at a concrete input: the first catalog model has a last
token and a concrete System B call succeeds. -/
theorem system_b_handler_total_witness :
    (lastToken "DJI Mini 3").isSome ∧ sampleB.isSome :=
  ⟨(system_b_handler_total fixedIsoClock zeroDraw zeroDraw zeroDraw).1 "DJI Mini 3"
      ⟨'D', by decide, by decide⟩,
    (system_b_handler_total fixedIsoClock zeroDraw zeroDraw zeroDraw).2.2⟩

/-- C3: whenever every random draw lies in its stated range, each detection of
both endpoints stays within base latitude/longitude ± 0.0005 and base altitude
± 5 of its corresponding catalog entry. -/
theorem detection_position_bounds (eC : Nat → ℤ) (iC : Nat → PyDateTime)
    (la lo al lb lc ld : Nat → ℚ)
    (hla : ∀ i, uniformRange (-defaultDelta) defaultDelta (la i))
    (hlo : ∀ i, uniformRange (-defaultDelta) defaultDelta (lo i))
    (hal : ∀ i, uniformRange (-5) 5 (al i))
    (hlb : ∀ i, uniformRange (-defaultDelta) defaultDelta (lb i))
    (hlc : ∀ i, uniformRange (-defaultDelta) defaultDelta (lc i))
    (hld : ∀ i, uniformRange (-5) 5 (ld i)) :
    defaultDelta = 0.0005
    ∧ (∀ q ∈ (get_system_a_detections eC la lo al).zip BASE_DRONES.enum,
        |q.1.Location_lat - q.2.2.lat| ≤ defaultDelta
        ∧ |q.1.Location_lon - q.2.2.lon| ≤ defaultDelta
        ∧ |q.1.Locatin_alt - q.2.2.alt| ≤ 5)
    ∧ (∀ l, get_system_b_detections iC lb lc ld = some l →
        ∀ q ∈ l.zip BASE_DRONES.enum,
          ∃ lonv latv altv, q.1.Location.coordinates = [lonv, latv, altv]
            ∧ |latv - q.2.2.lat| ≤ defaultDelta
            ∧ |lonv - q.2.2.lon| ≤ defaultDelta
            ∧ |altv - q.2.2.alt| ≤ 5) := by
  refine ⟨rfl, ?_, ?_⟩
  · intro q hq
    have hcanon := systemADetectionsFrom_zip eC la lo al BASE_DRONES 0 q hq
    rw [hcanon]
    exact ⟨abs_add_draw_sub q.2.2.lat (la q.2.1) defaultDelta (hla q.2.1),
      abs_add_draw_sub q.2.2.lon (lo q.2.1) defaultDelta (hlo q.2.1),
      abs_add_draw_sub q.2.2.alt (al q.2.1) 5 (hal q.2.1)⟩
  · intro l hl q hq
    obtain ⟨m, hm, hcanon⟩ := systemBDetectionsFrom_zip iC lb lc ld BASE_DRONES 0 l hl q hq
    rw [hcanon]
    exact ⟨jitter q.2.2.lon defaultDelta (lc q.2.1), jitter q.2.2.lat defaultDelta (lb q.2.1),
      q.2.2.alt + ld q.2.1, rfl,
      abs_add_draw_sub q.2.2.lat (lb q.2.1) defaultDelta (hlb q.2.1),
      abs_add_draw_sub q.2.2.lon (lc q.2.1) defaultDelta (hlc q.2.1),
      abs_add_draw_sub q.2.2.alt (ld q.2.1) 5 (hld q.2.1)⟩

/-- Witness for C3 at a concrete input: with all draws equal to 0, the first
System A detection stays within the stated bounds of the first catalog
entry. -/
theorem detection_position_bounds_witness :
    |(sampleA.headI).Location_lat - (BASE_DRONES.headI).lat| ≤ defaultDelta
    ∧ |(sampleA.headI).Location_lon - (BASE_DRONES.headI).lon| ≤ defaultDelta
    ∧ |(sampleA.headI).Locatin_alt - (BASE_DRONES.headI).alt| ≤ 5 :=
  (detection_position_bounds zeroEpochClock fixedIsoClock zeroDraw zeroDraw zeroDraw
      zeroDraw zeroDraw zeroDraw
      (zeroDraw_uniform defaultDelta (by norm_num [defaultDelta]))
      (zeroDraw_uniform defaultDelta (by norm_num [defaultDelta]))
      (zeroDraw_uniform 5 (by norm_num))
      (zeroDraw_uniform defaultDelta (by norm_num [defaultDelta]))
      (zeroDraw_uniform defaultDelta (by norm_num [defaultDelta]))
      (zeroDraw_uniform 5 (by norm_num))).2.1
    (sampleA.headI, (0, BASE_DRONES.headI)) (List.Mem.head _)

/-- C4: every System B detection's `Location` is a GeoJSON point whose `type`
is `"Point"` and whose coordinates are, in order, the jittered longitude, the
jittered latitude, and the noised altitude of its catalog entry. -/
theorem system_b_geojson_point (iC : Nat → PyDateTime) (la lo al : Nat → ℚ) :
    ∀ l, get_system_b_detections iC la lo al = some l →
      ∀ q ∈ l.zip BASE_DRONES.enum,
        q.1.Location.type = "Point"
        ∧ q.1.Location.coordinates =
            [ jitter q.2.2.lon defaultDelta (lo q.2.1),
              jitter q.2.2.lat defaultDelta (la q.2.1),
              q.2.2.alt + al q.2.1 ] := by
  intro l hl q hq
  obtain ⟨m, hm, hcanon⟩ := systemBDetectionsFrom_zip iC la lo al BASE_DRONES 0 l hl q hq
  rw [hcanon]
  exact ⟨rfl, rfl⟩

/-- Witness for C4 at a concrete input: the first detection of a concrete
System B call. -/
theorem system_b_geojson_point_witness :
    (sampleBList.headI).Location.type = "Point"
    ∧ (sampleBList.headI).Location.coordinates =
        [ jitter (BASE_DRONES.headI).lon defaultDelta (zeroDraw 0),
          jitter (BASE_DRONES.headI).lat defaultDelta (zeroDraw 0),
          (BASE_DRONES.headI).alt + zeroDraw 0 ] :=
  system_b_geojson_point fixedIsoClock zeroDraw zeroDraw zeroDraw sampleBList rfl
    (sampleBList.headI, (0, BASE_DRONES.headI)) (List.Mem.head _)

/-- C5: every System B detection's `Model` is the last whitespace-delimited
token of its catalog entry's model string and its `manufacturer` is passed
through unchanged; on the concrete catalog the tokens are
`3, 2, Evo, Anafi, 2` (in particular `DJI Mini 2` yields `2`). -/
theorem system_b_model_last_token (iC : Nat → PyDateTime) (la lo al : Nat → ℚ) :
    (∀ l, get_system_b_detections iC la lo al = some l →
        ∀ q ∈ l.zip BASE_DRONES.enum,
          lastToken q.2.2.model = some q.1.Model
          ∧ q.1.manufacturer = q.2.2.manufacturer)
    ∧ lastToken "DJI Mini 2" = some "2"
    ∧ BASE_DRONES.map (fun d => lastToken d.model)
        = [some "3", some "2", some "Evo", some "Anafi", some "2"] := by
  refine ⟨?_, by decide, by decide⟩
  intro l hl q hq
  obtain ⟨m, hm, hcanon⟩ := systemBDetectionsFrom_zip iC la lo al BASE_DRONES 0 l hl q hq
  rw [hcanon]
  exact ⟨hm, rfl⟩

/-- Witness for C5 at a concrete input: the first detection of a concrete
System B call. -/
theorem system_b_model_last_token_witness :
    lastToken (BASE_DRONES.headI).model = some (sampleBList.headI).Model
    ∧ (sampleBList.headI).manufacturer = (BASE_DRONES.headI).manufacturer :=
  (system_b_model_last_token fixedIsoClock zeroDraw zeroDraw zeroDraw).1 sampleBList rfl
    (sampleBList.headI, (0, BASE_DRONES.headI)) (List.Mem.head _)

/-- C6 counterexample: on a concrete call, every serialized System A object
has key list `Drone_id, Timestamp, Location_lat, Location_lon, Locatin_alt,
Drone_model`; the keys `timestamp` and `drone_model` named by the claim do not
occur (JSON keys are case-sensitive), while `Timestamp` and `Drone_model`
do. -/
theorem system_a_field_names_counterexample :
    sampleA.map (fun r => jsonKeys r.toJson) = List.replicate 5 systemAFieldNames
    ∧ "timestamp" ∉ systemAFieldNames
    ∧ "drone_model" ∉ systemAFieldNames
    ∧ "Timestamp" ∈ systemAFieldNames
    ∧ "Drone_model" ∈ systemAFieldNames := by
  refine ⟨by decide, by decide, by decide, by decide, by decide⟩

/-- C6 (amended): every object in a `GET /system-a/detections` response has
exactly the fields `Drone_id`, integer `Timestamp`, `Location_lat`,
`Location_lon`, `Locatin_alt` (deliberate misspelling), `Drone_model`, in
that order. -/
theorem system_a_field_names_exact (eC : Nat → ℤ) (la lo al : Nat → ℚ) :
    ∀ r ∈ get_system_a_detections eC la lo al,
      jsonKeys r.toJson = systemAFieldNames := by
  intro r _
  rfl

/-- Witness for the amended C6 at a concrete input. -/
theorem system_a_field_names_exact_witness :
    jsonKeys (sampleA.headI).toJson = systemAFieldNames :=
  system_a_field_names_exact zeroEpochClock zeroDraw zeroDraw zeroDraw
    sampleA.headI (List.Mem.head _)

/-- C7 counterexample: no System B response object whatsoever carries a
top-level `type` field (so no variant with `type: "UAV"` exists); on a
concrete call every serialized object has exactly the keys `Serial,
Detection_timestamp, Location, Model, manufacturer`. -/
theorem system_b_no_uav_type_counterexample :
    (¬ ∃ r : SystemBResponse, "type" ∈ jsonKeys r.toJson)
    ∧ sampleB.map (fun l => l.map fun r => jsonKeys r.toJson)
        = some (List.replicate 5 systemBFieldNames) := by
  constructor
  · rintro ⟨r, hmem⟩
    have hk : jsonKeys r.toJson = systemBFieldNames := rfl
    rw [hk] at hmem
    exact (by decide : "type" ∉ systemBFieldNames) hmem
  · decide

/-- C7 (amended): no System B response variant carries a top-level `type`
field; every object in a `GET /system-b/detections` response has exactly the
fields `Serial`, `Detection_timestamp`, `Location`, `Model`, `manufacturer`,
and the only `type` field is the one nested in `Location`, holding
`"Point"`. -/
theorem system_b_field_names_exact (iC : Nat → PyDateTime) (la lo al : Nat → ℚ) :
    ∀ l, get_system_b_detections iC la lo al = some l →
      ∀ r ∈ l,
        jsonKeys r.toJson = systemBFieldNames
        ∧ "type" ∉ jsonKeys r.toJson
        ∧ jsonKeys r.Location.toJson = ["type", "coordinates"]
        ∧ r.Location.type = "Point" := by
  intro l hl r hr
  obtain ⟨j, d, m, hd, hm, rfl⟩ := systemBDetectionsFrom_mem iC la lo al BASE_DRONES 0 l hl r hr
  refine ⟨rfl, ?_, rfl, rfl⟩
  have hk : jsonKeys (mkSystemB iC la lo al j d m).toJson = systemBFieldNames := rfl
  rw [hk]
  decide

/-- Witness for the amended C7 at a concrete input. -/
theorem system_b_field_names_exact_witness :
    jsonKeys (sampleBList.headI).toJson = systemBFieldNames
    ∧ "type" ∉ jsonKeys (sampleBList.headI).toJson
    ∧ jsonKeys (sampleBList.headI).Location.toJson = ["type", "coordinates"]
    ∧ (sampleBList.headI).Location.type = "Point" :=
  system_b_field_names_exact fixedIsoClock zeroDraw zeroDraw zeroDraw sampleBList rfl
    sampleBList.headI (List.Mem.head _)

/-- C8 counterexample: on a clock reading whose microsecond component is zero,
`now_iso` renders no fractional-second component at all (Python `isoformat`
with the default `timespec='auto'`), so the microseconds component is not
always present; the timezone offset is still there. -/
theorem now_iso_micro_counterexample :
    now_iso microZeroReading = "2026-01-19T15:56:05+00:00"
    ∧ '.' ∉ (now_iso microZeroReading).data
    ∧ now_iso microZeroReading = "2026-01-19T15:56:05" ++ "+00:00" := by
  refine ⟨by decide, by decide, by decide⟩

/-- C8 (amended): `now_iso` formats a UTC reading as ISO-8601 ending in the
timezone offset `+00:00`, and the microsecond component is present exactly
when the reading's microsecond is nonzero (Python `isoformat` default
`timespec='auto'` omits it when it is zero). -/
theorem now_iso_format (d : PyDateTime) :
    (∃ s, now_iso d = s ++ "+00:00")
    ∧ (d.microsecond ≠ 0 →
        now_iso d = isoDatePart d ++ ("." ++ padNum 6 d.microsecond) ++ "+00:00")
    ∧ (d.microsecond = 0 → now_iso d = isoDatePart d ++ "+00:00") := by
  refine ⟨⟨isoDatePart d ++ (if d.microsecond = 0 then "" else "." ++ padNum 6 d.microsecond),
      rfl⟩, ?_, ?_⟩
  · intro h
    simp [now_iso, isoformatUTC, h]
  · intro h
    simp [now_iso, isoformatUTC, h]

/-- Witness for the amended C8 at concrete inputs: a reading with nonzero
microseconds renders them (this is the spec's own example string), and a
reading with zero microseconds renders none. -/
theorem now_iso_format_witness :
    now_iso microReading
      = isoDatePart microReading ++ ("." ++ padNum 6 microReading.microsecond) ++ "+00:00"
    ∧ now_iso microReading = "2026-01-19T15:56:05.049630+00:00"
    ∧ now_iso microZeroReading = isoDatePart microZeroReading ++ "+00:00" :=
  ⟨(now_iso_format microReading).2.1 (by decide), by decide,
    (now_iso_format microZeroReading).2.2 (by decide)⟩

/-- C9: handlers never write shared state: dispatching any request returns the
server state unchanged, the catalog after any request history equals the
catalog before it, and a handler's response depends only on the catalog and
the request's clock/random environment, not on prior calls. -/
theorem handlers_read_only (s t : ServerState) (env : Env) (req : Request)
    (hist : List (Env × Request)) (hcat : s.catalog = t.catalog) :
    (handleRequest s env req).1 = s
    ∧ (runServer s hist).catalog = s.catalog
    ∧ (handleRequest s env req).2 = (handleRequest t env req).2 := by
  have hfst : ∀ (u : ServerState) (e : Env) (r : Request), (handleRequest u e r).1 = u := by
    intro u e r
    cases r <;> rfl
  refine ⟨hfst s env req, ?_, ?_⟩
  · clear hcat
    induction hist generalizing s with
    | nil => rfl
    | cons p rest ih =>
      obtain ⟨e, r⟩ := p
      rw [show runServer s ((e, r) :: rest) = runServer (handleRequest s e r).1 rest from rfl,
        hfst]
      exact ih s
  · obtain ⟨c⟩ := s
    obtain ⟨c'⟩ := t
    cases hcat
    rfl

/-- Witness for C9 at a concrete input: a two-request history leaves the
catalog untouched. -/
theorem handlers_read_only_witness :
    (handleRequest ⟨BASE_DRONES⟩ sampleEnv Request.health).1 = ⟨BASE_DRONES⟩
    ∧ (runServer ⟨BASE_DRONES⟩
        [(sampleEnv, Request.systemA), (sampleEnv, Request.systemB)]).catalog
      = BASE_DRONES
    ∧ (handleRequest ⟨BASE_DRONES⟩ sampleEnv Request.health).2
      = (handleRequest ⟨BASE_DRONES⟩ sampleEnv Request.health).2 :=
  handlers_read_only ⟨BASE_DRONES⟩ ⟨BASE_DRONES⟩ sampleEnv Request.health
    [(sampleEnv, Request.systemA), (sampleEnv, Request.systemB)] rfl

end MockDrone
